import Mathlib

/-!
Verification of `src/common/membership/hostinfo.go` (package `membership`
of moti-wix/cadence): the `HostInfo` record and its operations
(`NewHostInfo`, `NewDetailedHostInfo`, `GetAddress`, `GetNamedAddress`,
`Belongs`, `Identity`, `Label`, `SetLabel`, `String`).

The Go code is shallowly embedded: strings are Lean `String`s, the Go map
`PortMap` (`map[string]uint16`) is modelled as an association list with
string keys and natural-number values (Go map keys are unique; iteration
order is unspecified in Go, the list order is one admissible order; only
existence and lookup matter to the verified operations), and the library
functions `net.SplitHostPort`, `net.JoinHostPort`, `strconv.Itoa` and the
`fmt` format verbs used by the code are embedded below following the Go
standard library sources.
-/

set_option autoImplicit false
set_option linter.unusedVariables false

namespace Hostinfo

/-- Embeds `net.AddrError` as returned by `net.SplitHostPort`:
an error string and the offending address. -/
structure AddrError where
  err : String
  addr : String
deriving DecidableEq, Repr

/-- Index of the last occurrence of `c` in `l` (Go's `last` helper inside
`net.SplitHostPort`, which scans from the end; `none` stands for `-1`). -/
def lastIndexOf (l : List Char) (c : Char) : Option Nat :=
  match l.reverse.findIdx? (fun x => x = c) with
  | none => none
  | some j => some (l.length - 1 - j)

/-- Embeds `net.SplitHostPort` from the Go standard library, which the
source calls in `NewHostInfo`, `NewDetailedHostInfo` and `Belongs`:
the port starts after the last colon; a host containing colons must be
bracketed `[host]`; stray brackets are rejected; the port substring is
not otherwise validated. The Go error texts quote the bracket characters;
the model paraphrases those three messages without quoting (claims depend
only on which error is produced, not on its exact wording). -/
def splitHostPort (hostport : String) : Except AddrError (String × String) :=
  let cs := hostport.toList
  match lastIndexOf cs ':' with
  | none => .error ⟨"missing port in address", hostport⟩
  | some i =>
    let step :=
      if cs.head? = some '[' then
        match cs.findIdx? (fun x => x = ']') with
        | none => Except.error (AddrError.mk "missing close bracket in address" hostport)
        | some e =>
          if e + 1 = cs.length then
            Except.error (AddrError.mk "missing port in address" hostport)
          else if e + 1 = i then
            Except.ok ((cs.drop 1).take (e - 1), 1, e + 1)
          else if cs.get? (e + 1) = some ':' then
            Except.error (AddrError.mk "too many colons in address" hostport)
          else
            Except.error (AddrError.mk "missing port in address" hostport)
      else
        let host := cs.take i
        if host.contains ':' then
          Except.error (AddrError.mk "too many colons in address" hostport)
        else
          Except.ok (host, 0, 0)
    match step with
    | .error e => .error e
    | .ok (host, j, k) =>
      if (cs.drop j).contains '[' then
        .error ⟨"unexpected opening bracket in address", hostport⟩
      else if (cs.drop k).contains ']' then
        .error ⟨"unexpected closing bracket in address", hostport⟩
      else
        .ok (⟨host⟩, ⟨cs.drop (i + 1)⟩)

/-- Embeds `net.JoinHostPort`: brackets the host when it contains a colon. -/
def joinHostPort (host port : String) : String :=
  if host.toList.contains ':' then "[" ++ host ++ "]" ++ ":" ++ port
  else host ++ ":" ++ port

/-- `PortMap` is `map[string]uint16` in the source; modelled as an
association list of port names to port numbers. -/
abbrev PortMap := List (String × Nat)

/-- Map lookup `m[name]` (Go map keys are unique, so first match). -/
def lookupPort (m : PortMap) (name : String) : Option Nat :=
  match m with
  | [] => none
  | (k, v) :: rest => if k = name then some v else lookupPort rest name

/-- `HostInfo` struct of hostinfo.go: primary address, derived ip,
optional identity, and the named-port table. -/
structure HostInfo where
  addr : String
  ip : String
  identity : String
  portMap : PortMap
deriving DecidableEq, Repr

/-- `NewHostInfo`: stores `addr` verbatim and the host extracted by
`net.SplitHostPort` (Go's multi-return `ip, _, _ :=` yields `""` for the
host when the split fails, since `SplitHostPort` returns empty strings
together with its error). -/
def NewHostInfo (addr : String) : HostInfo :=
  let ip := match splitHostPort addr with
    | .ok hp => hp.1
    | .error _ => ""
  { addr := addr, ip := ip, identity := "", portMap := [] }

/-- `NewDetailedHostInfo`: same address/ip derivation as `NewHostInfo`,
plus the given identity and port map stored directly. -/
def NewDetailedHostInfo (addr : String) (identity : String) (portMap : PortMap) : HostInfo :=
  let ip := match splitHostPort addr with
    | .ok hp => hp.1
    | .error _ => ""
  { addr := addr, ip := ip, identity := identity, portMap := portMap }

/-- `GetAddress` returns the stored `addr` field. -/
def HostInfo.GetAddress (hi : HostInfo) : String :=
  hi.addr

/-- `PortMap.String()`: renders each entry as `fmt.Sprintf("%s:%d", name, port)`
and joins with `strings.Join(res, ", ")`. Go map iteration order is
unspecified; the model renders in list order. -/
def portMapToString (m : PortMap) : String :=
  String.intercalate ", " (m.map (fun e => e.1 ++ ":" ++ toString e.2))

/-- `HostInfo.String()`:
`fmt.Sprintf("addr: %s, identity: %s, portMap: %s", hi.addr, hi.identity, hi.portMap)`. -/
def HostInfo.toGoString (hi : HostInfo) : String :=
  "addr: " ++ hi.addr ++ ", identity: " ++ hi.identity ++ ", portMap: " ++
    portMapToString hi.portMap

/-- One character under `fmt`'s `%q` verb (Go quoting): quote, backslash
and the common control characters are escaped; other characters are kept
(the model keeps all other characters literal, which agrees with Go on
printable characters). -/
def goQuoteChar (c : Char) : String :=
  if c = '"' then "\\\""
  else if c = '\\' then "\\\\"
  else if c = '\n' then "\\n"
  else if c = '\t' then "\\t"
  else if c = '\r' then "\\r"
  else String.singleton c

/-- `fmt`'s `%q` verb on a string: double quotes around the escaped body. -/
def goQuote (s : String) : String :=
  "\"" ++ String.join (s.toList.map goQuoteChar) ++ "\""

/-- `GetNamedAddress(port)`: on a hit in the port map, joins `hi.ip` with
`strconv.Itoa(int(port))`; otherwise the error
`fmt.Errorf("port %q is not set for %+v", port, hi)` (the `%+v` verb uses
the `String()` method `HostInfo` implements). `Except.error` carries the
message, `Except.ok` the address (Go returns `("", err)` / `(addr, nil)`). -/
def HostInfo.GetNamedAddress (hi : HostInfo) (port : String) : Except String String :=
  match lookupPort hi.portMap port with
  | some p => .ok (joinHostPort hi.ip (toString p))
  | none => .error ("port " ++ goQuote port ++ " is not set for " ++ hi.toGoString)

/-- `Belongs(address)`: exact string match on `addr` first; then split the
candidate (propagating the split error with `false`); then compare hosts;
then scan the port-map values comparing the candidate's port string with
`strconv.Itoa(int(number))`. The result pair is Go's `(bool, error)` with
`none` for `nil`. -/
def HostInfo.Belongs (hi : HostInfo) (address : String) : Bool × Option AddrError :=
  if hi.addr = address then (true, none)
  else
    match splitHostPort address with
    | .error e => (false, some e)
    | .ok (ip, port) =>
      if ip ≠ hi.ip then (false, none)
      else if hi.portMap.any (fun e => port == toString e.2) then (true, none)
      else (false, none)

/-- `Identity()`: the identity field, or the address when identity is empty. -/
def HostInfo.Identity (hi : HostInfo) : String :=
  if hi.identity = "" then hi.addr else hi.identity

/-- `Label(key)`: no-op stub, always `("", false)`. -/
def HostInfo.Label (hi : HostInfo) (key : String) : String × Bool :=
  ("", false)

/-- `SetLabel(key, value)`: no-op stub on a value receiver; the record is
unchanged (the Go method body is empty and the receiver is a value). -/
def HostInfo.SetLabel (hi : HostInfo) (key : String) (value : String) : HostInfo :=
  hi

/-- Helper: with a failed exact-string match, `Belongs` is the
split/compare pipeline on the candidate. -/
theorem Belongs_of_ne (hi : HostInfo) (cand : String) (hne : hi.addr ≠ cand) :
    hi.Belongs cand =
      match splitHostPort cand with
      | .error e => (false, some e)
      | .ok (ip, port) =>
        if ip ≠ hi.ip then (false, none)
        else if hi.portMap.any (fun e => port == toString e.2) then (true, none)
        else (false, none) := by
  simp [HostInfo.Belongs, hne]

/-- Helper: folding `SetLabel` over any list of key/value pairs returns the
record unchanged. -/
theorem foldl_SetLabel (ops : List (String × String)) (hi : HostInfo) :
    ops.foldl (fun h p => h.SetLabel p.1 p.2) hi = hi := by
  induction ops generalizing hi with
  | nil => rfl
  | cons hd tl ih => exact ih hi

/-- C1 (counterexample): the claim requires `Belongs` to return true when
the candidate's port equals the primary address's port, but the code only
scans `portMap` after the exact-string match fails. With address
`"h:7933"` (ports empty) and candidate `"[h]:7933"` — a distinct string
that parses to the very same host `"h"` and the very same port string
`"7933"` as the primary address — `Belongs` returns `(false, nil)` where
the claim demands `(true, nil)`. -/
theorem c1_counterexample :
    splitHostPort (NewHostInfo "h:7933").addr = .ok ("h", "7933") ∧
    "[h]:7933" ≠ (NewHostInfo "h:7933").addr ∧
    splitHostPort "[h]:7933" = .ok ("h", "7933") ∧
    (NewHostInfo "h:7933").ip = "h" ∧
    (NewHostInfo "h:7933").Belongs "[h]:7933" = (false, none) :=
  ⟨rfl, by decide, rfl, rfl, by decide⟩

/-- C1 (amended): for every record whose address parses and every
candidate distinct from the record's address that parses with host equal
to the record's `ip`, `Belongs` returns true exactly when the candidate's
port string equals the decimal rendering of some entry of `ports` (the
primary address's port is not separately consulted), with a nil error. -/
theorem c1_amended (hi : HostInfo) (h0 p0 cand h p : String)
    (haddr : splitHostPort hi.addr = .ok (h0, p0))
    (hne : cand ≠ hi.addr)
    (hsplit : splitHostPort cand = .ok (h, p))
    (hip : h = hi.ip) :
    hi.Belongs cand = (hi.portMap.any (fun e => p == toString e.2), none) := by
  rw [Belongs_of_ne hi cand (Ne.symm hne), hsplit]
  simp only [hip, ne_eq, not_true_eq_false, if_false]
  cases hany : hi.portMap.any (fun e => p == toString e.2) <;> simp [hany]

/-- C1 (witness): the record `{addr := "10.0.0.1:7933", ports := {grpc ↦ 7941}}`
recognises `"10.0.0.1:7941"` via its named port. -/
theorem c1_witness :
    (NewDetailedHostInfo "10.0.0.1:7933" "" [("grpc", 7941)]).Belongs "10.0.0.1:7941"
      = (true, none) := by
  have h := c1_amended (NewDetailedHostInfo "10.0.0.1:7933" "" [("grpc", 7941)])
    "10.0.0.1" "7933" "10.0.0.1:7941" "10.0.0.1" "7941" rfl (by decide) rfl rfl
  rw [h]
  rfl

/-- C2 (counterexample): the port comparison in `Belongs` is string
equality against `strconv.Itoa`, not numeric equality: with
`ports = {grpc ↦ 7941}` and candidate `"10.0.0.1:07941"` (same host, port
string `"07941"`, a leading-zero encoding of 7941), `Belongs` returns
`(false, nil)` where the claim demands `(true, nil)`. -/
theorem c2_counterexample :
    splitHostPort "10.0.0.1:07941" = .ok ("10.0.0.1", "07941") ∧
    (NewDetailedHostInfo "10.0.0.1:7933" "" [("grpc", 7941)]).ip = "10.0.0.1" ∧
    (NewDetailedHostInfo "10.0.0.1:7933" "" [("grpc", 7941)]).portMap = [("grpc", 7941)] ∧
    (NewDetailedHostInfo "10.0.0.1:7933" "" [("grpc", 7941)]).Belongs "10.0.0.1:07941"
      = (false, none) :=
  ⟨rfl, rfl, rfl, by decide⟩

/-- C2 (amended): the comparison of the candidate's port against each
configured port is lexical string equality with the canonical decimal
rendering: when the candidate's host equals the record's `ip` but its
port string differs, as a string, from the decimal rendering of every
entry of `ports` (as a leading-zero encoding such as `"07941"` does),
`Belongs` returns `(false, nil)`. -/
theorem c2_amended (hi : HostInfo) (cand h p : String)
    (hne : cand ≠ hi.addr)
    (hsplit : splitHostPort cand = .ok (h, p))
    (hip : h = hi.ip)
    (hnc : ∀ e ∈ hi.portMap, p ≠ toString e.2) :
    hi.Belongs cand = (false, none) := by
  rw [Belongs_of_ne hi cand (Ne.symm hne), hsplit]
  simp only [hip, ne_eq, not_true_eq_false, if_false]
  have hany : hi.portMap.any (fun e => p == toString e.2) = false := by
    simp only [List.any_eq_false, beq_iff_eq]
    exact hnc
  simp [hany]

/-- C2 (witness): applies the amended theorem at the concrete
leading-zero input `"10.0.0.1:07941"`. -/
theorem c2_witness :
    (NewDetailedHostInfo "10.0.0.1:7933" "" [("grpc", 7941)]).Belongs "10.0.0.1:07941"
      = (false, none) :=
  c2_amended (NewDetailedHostInfo "10.0.0.1:7933" "" [("grpc", 7941)])
    "10.0.0.1:07941" "10.0.0.1" "07941" (by decide) rfl rfl (by decide)

/-- C3: a candidate string-equal to the record's address always yields
`(true, nil)` — the rule precedes parsing, so it applies to malformed
addresses too; in particular `Create(a).Belongs(a) = (true, nil)` for
every string `a`. -/
theorem c3_belongs_exact_match (hi : HostInfo) (a : String) :
    (hi.addr = a → hi.Belongs a = (true, none)) ∧
    (NewHostInfo a).Belongs a = (true, none) := by
  constructor
  · intro h
    simp [HostInfo.Belongs, h]
  · simp [HostInfo.Belongs, NewHostInfo]

/-- C3 (witness): the exact-match rule at a malformed address and at a
detailed record. -/
theorem c3_witness :
    (NewHostInfo "not-an-address").Belongs "not-an-address" = (true, none) ∧
    (NewDetailedHostInfo "10.0.0.1:7933" "x" [("grpc", 7941)]).Belongs "10.0.0.1:7933"
      = (true, none) :=
  ⟨(c3_belongs_exact_match (NewHostInfo "not-an-address") "not-an-address").2,
   (c3_belongs_exact_match (NewDetailedHostInfo "10.0.0.1:7933" "x" [("grpc", 7941)])
      "10.0.0.1:7933").1 rfl⟩

/-- C4: a candidate distinct from the record's address that parses with a
host different from the record's `ip` yields `(false, nil)`, regardless
of its port. -/
theorem c4_belongs_ip_mismatch (hi : HostInfo) (cand h p : String)
    (hne : cand ≠ hi.addr)
    (hsplit : splitHostPort cand = .ok (h, p))
    (hip : h ≠ hi.ip) :
    hi.Belongs cand = (false, none) := by
  rw [Belongs_of_ne hi cand (Ne.symm hne), hsplit]
  simp [hip]

/-- C4 (witness): `"10.0.0.2:7933"` is rejected by the record at
`"10.0.0.1:7933"` even though the candidate's port equals the primary
port and 7933 could sit in `ports`. -/
theorem c4_witness :
    (NewDetailedHostInfo "10.0.0.1:7933" "" [("grpc", 7941), ("x", 7933)]).Belongs
      "10.0.0.2:7933" = (false, none) :=
  c4_belongs_ip_mismatch
    (NewDetailedHostInfo "10.0.0.1:7933" "" [("grpc", 7941), ("x", 7933)])
    "10.0.0.2:7933" "10.0.0.2" "7933" (by decide) rfl (by decide)

/-- C5: `Belongs` yields the error `e` (with `false`) exactly when the
candidate differs from the record's address and `net.SplitHostPort` fails
with `e` — the parse error is propagated unchanged; and whenever the
boolean result is `true` the error is nil. -/
theorem c5_belongs_error_iff (hi : HostInfo) (cand : String) (e : AddrError) :
    (hi.Belongs cand = (false, some e) ↔
      (cand ≠ hi.addr ∧ splitHostPort cand = .error e)) ∧
    ((hi.Belongs cand).2 = some e → hi.Belongs cand = (false, some e)) := by
  by_cases hc : hi.addr = cand
  · simp [HostInfo.Belongs, hc]
  · rw [Belongs_of_ne hi cand hc]
    cases hsp : splitHostPort cand with
    | error e' =>
      constructor
      · constructor
        · intro h
          have h2 : some e' = some e := congrArg Prod.snd h
          injection h2 with h3
          exact ⟨fun hx => hc hx.symm, by rw [h3]⟩
        · intro ⟨h1, h2⟩
          injection h2 with h3
          rw [h3]
      · intro h
        simp only [Prod.snd] at h
        injection h with h3
        rw [h3]
    | ok hp =>
      obtain ⟨ip, port⟩ := hp
      by_cases hip : ip = hi.ip
      · simp only [hip, ne_eq, not_true_eq_false, if_false]
        cases hany : hi.portMap.any (fun e => port == toString e.2) <;>
          simp [hany, fun hx : hi.addr = cand => hc hx]
      · simp [hip]

/-- C5 (witness): a candidate with no colon produces the propagated
missing-port parse error together with `false`. -/
theorem c5_witness :
    (NewHostInfo "h:1").Belongs "nope"
      = (false, some ⟨"missing port in address", "nope"⟩) :=
  (c5_belongs_error_iff (NewHostInfo "h:1") "nope"
      ⟨"missing port in address", "nope"⟩).1.mpr ⟨by decide, rfl⟩

/-- C6: `GetNamedAddress` fails exactly when the port name is absent from
the record's port table; on success it returns the record's `ip` joined
with the decimal rendering of the mapped port; on failure the message
contains the requested port name (stated for names that `%q` quotes
verbatim) and ends with the record's `String()` representation. -/
theorem c6_get_named_address (hi : HostInfo) (name : String)
    (hq : goQuote name = "\"" ++ name ++ "\"") :
    (∀ p, lookupPort hi.portMap name = some p →
       hi.GetNamedAddress name = .ok (joinHostPort hi.ip (toString p))) ∧
    (lookupPort hi.portMap name = none →
       ∃ msg, hi.GetNamedAddress name = .error msg ∧
         (∃ pre post, msg = pre ++ name ++ post) ∧
         (∃ pre, msg = pre ++ hi.toGoString)) ∧
    ((∃ msg, hi.GetNamedAddress name = .error msg) ↔
       lookupPort hi.portMap name = none) := by
  refine ⟨?_, ?_, ?_⟩
  · intro p hp
    simp [HostInfo.GetNamedAddress, hp]
  · intro hp
    refine ⟨"port " ++ goQuote name ++ " is not set for " ++ hi.toGoString,
      by simp [HostInfo.GetNamedAddress, hp], ?_, ?_⟩
    · refine ⟨"port " ++ "\"", "\"" ++ (" is not set for " ++ hi.toGoString), ?_⟩
      simp only [hq, String.append_assoc]
    · exact ⟨"port " ++ goQuote name ++ " is not set for ", by simp [String.append_assoc]⟩
  · cases hp : lookupPort hi.portMap name <;>
      simp [HostInfo.GetNamedAddress, hp]

/-- C6 (witness): at the record `{ports := {grpc ↦ 7941}, addr := "10.0.0.1:7933"}`,
`GetNamedAddress "grpc"` returns `"10.0.0.1:7941"` and
`GetNamedAddress "tchannel"` fails with a message containing `"tchannel"`. -/
theorem c6_witness :
    (NewDetailedHostInfo "10.0.0.1:7933" "" [("grpc", 7941)]).GetNamedAddress "grpc"
        = .ok "10.0.0.1:7941" ∧
    ∃ msg,
      (NewDetailedHostInfo "10.0.0.1:7933" "" [("grpc", 7941)]).GetNamedAddress "tchannel"
          = .error msg ∧
      ∃ pre post, msg = pre ++ "tchannel" ++ post := by
  constructor
  · have h := (c6_get_named_address
      (NewDetailedHostInfo "10.0.0.1:7933" "" [("grpc", 7941)]) "grpc" rfl).1 7941 rfl
    rw [h]
    rfl
  · obtain ⟨msg, hmsg, hname, -⟩ := (c6_get_named_address
      (NewDetailedHostInfo "10.0.0.1:7933" "" [("grpc", 7941)]) "tchannel" rfl).2.1 rfl
    exact ⟨msg, hmsg, hname⟩

/-- C7: `Identity()` returns the identity field when non-empty and the
address field when the identity is empty, as on the two given records. -/
theorem c7_identity (hi : HostInfo) :
    (hi.identity ≠ "" → hi.Identity = hi.identity) ∧
    (hi.identity = "" → hi.Identity = hi.addr) ∧
    (NewDetailedHostInfo "h:1" "" []).Identity = "h:1" ∧
    (NewDetailedHostInfo "h:1" "node-A" []).Identity = "node-A" := by
  refine ⟨?_, ?_, rfl, rfl⟩
  · intro h
    simp [HostInfo.Identity, h]
  · intro h
    simp [HostInfo.Identity, h]

/-- C7 (witness): the two record shapes of the claim, with the two
branch hypotheses discharged concretely. -/
theorem c7_witness :
    (NewDetailedHostInfo "h:1" "node-A" []).Identity = "node-A" ∧
    (NewDetailedHostInfo "h:1" "" []).Identity = "h:1" :=
  ⟨(c7_identity (NewDetailedHostInfo "h:1" "node-A" [])).1 (by decide),
   (c7_identity (NewDetailedHostInfo "h:1" "" [])).2.1 rfl⟩

/-- C8: construction is total and never fails: the address field is
stored verbatim (so `GetAddress` returns the input), the identity and
port table are stored as given (empty for `Create`), and `ip` is the
extracted host when the address splits and the empty string when the
split fails. -/
theorem c8_construction (a i : String) (pm : PortMap) :
    (NewHostInfo a).GetAddress = a ∧
    (NewDetailedHostInfo a i pm).GetAddress = a ∧
    (NewHostInfo a).addr = a ∧
    (NewDetailedHostInfo a i pm).addr = a ∧
    (NewHostInfo a).identity = "" ∧
    (NewHostInfo a).portMap = [] ∧
    (NewDetailedHostInfo a i pm).identity = i ∧
    (NewDetailedHostInfo a i pm).portMap = pm ∧
    (∀ h p, splitHostPort a = .ok (h, p) →
       (NewHostInfo a).ip = h ∧ (NewDetailedHostInfo a i pm).ip = h) ∧
    (∀ e, splitHostPort a = .error e →
       (NewHostInfo a).ip = "" ∧ (NewDetailedHostInfo a i pm).ip = "") := by
  refine ⟨rfl, rfl, rfl, rfl, rfl, rfl, rfl, rfl, ?_, ?_⟩
  · intro h p hsp
    constructor <;> simp [NewHostInfo, NewDetailedHostInfo, hsp]
  · intro e hsp
    constructor <;> simp [NewHostInfo, NewDetailedHostInfo, hsp]

/-- C8 (witness): a well-formed address keeps its host as `ip`; a
malformed one degrades to the empty `ip`. -/
theorem c8_witness :
    (NewHostInfo "10.0.0.1:7933").ip = "10.0.0.1" ∧
    (NewDetailedHostInfo "not-an-address" "id" [("grpc", 1)]).ip = "" :=
  ⟨((c8_construction "10.0.0.1:7933" "" []).2.2.2.2.2.2.2.2.1 "10.0.0.1" "7933" rfl).1,
   ((c8_construction "not-an-address" "id" [("grpc", 1)]).2.2.2.2.2.2.2.2.2
      ⟨"missing port in address", "not-an-address"⟩ rfl).2⟩

/-- C9: `Label` and `SetLabel` are permanent no-ops: after any sequence
of `SetLabel` calls the record (hence each of its four fields) equals its
post-construction value and `Label` still answers `("", false)`. -/
theorem c9_label_noop (hi : HostInfo) (k v : String) (ops : List (String × String)) :
    ops.foldl (fun h p => h.SetLabel p.1 p.2) hi = hi ∧
    (ops.foldl (fun h p => h.SetLabel p.1 p.2) hi).Label k = ("", false) ∧
    hi.SetLabel k v = hi ∧
    ((hi.SetLabel k v).addr = hi.addr ∧ (hi.SetLabel k v).ip = hi.ip ∧
     (hi.SetLabel k v).identity = hi.identity ∧ (hi.SetLabel k v).portMap = hi.portMap) ∧
    hi.Label k = ("", false) :=
  ⟨foldl_SetLabel ops hi, rfl, rfl, ⟨rfl, rfl, rfl, rfl⟩, rfl⟩

/-- C10: a record whose address fails to parse has the empty `ip`, and a
candidate such as `":7941"` — empty host, port string matching a
configured port — makes `Belongs` return `(true, nil)`, because the empty
candidate host compares equal to the empty `ip`. -/
theorem c10_empty_ip_edge :
    splitHostPort "not-an-address"
      = .error ⟨"missing port in address", "not-an-address"⟩ ∧
    (NewDetailedHostInfo "not-an-address" "" [("grpc", 7941)]).ip = "" ∧
    splitHostPort ":7941" = .ok ("", "7941") ∧
    (NewDetailedHostInfo "not-an-address" "" [("grpc", 7941)]).Belongs ":7941"
      = (true, none) :=
  ⟨rfl, rfl, rfl, by decide⟩

end Hostinfo
